import Mathlib

/-!
Shallow embedding of the sync-orchestration engine of sublime-rsync-ssh
(src/rsync_ssh.py) and verification of its specification claims.

Conventions of the embedding:
* POSIX platform is modelled (os.sep is "/"); the Windows-only cygpath
  branch of Rsync.run (lines 544-558) is platform-specific and omitted.
* Filesystem canonicalization (os.path.realpath) is external I/O; paths that
  the source canonicalizes and splits are given to the model directly as
  their canonical segment lists.
* Subprocess execution is external: a World record supplies the outcome of
  each of the four subprocess invocations of one Rsync job (probe,
  pre-command, transfer, post-command) and the os.path.isfile/isdir queries.
* Python string truthiness (None and "" are falsy) is modelled with
  Option String; Python dict .get with a default is Option.getD.
* Python runtime errors that the claims are about (TypeError from a call
  with missing required positional arguments, IndexError from pop() on an
  empty list) are modelled with Except PyError.
-/

/-- Python runtime errors relevant to the claims. -/
inductive PyError where
  | typeError
  | indexError
deriving DecidableEq

/-- Prefix test on character lists: charsPre p l is true iff p is a prefix
of l.  Used to model Python's startswith / substring containment. -/
def charsPre : List Char → List Char → Bool
  | [], _ => true
  | _ :: _, [] => false
  | a :: as, b :: bs => a == b && charsPre as bs

/-- containsChars pat l is true iff pat occurs as a contiguous sublist of l.
Models Python's "sub in s" substring test. -/
def containsChars (pat : List Char) : List Char → Bool
  | [] => charsPre pat []
  | c :: cs => charsPre pat (c :: cs) || containsChars pat cs

/-- Python "pat in s" substring containment on strings. -/
def containsSubstr (s pat : String) : Bool :=
  containsChars pat.data s.data

/-- Python s.startswith(p). -/
def strStartsWith (s p : String) : Bool :=
  charsPre p.data s.data

/-- Python s.endswith(p). -/
def strEndsWith (s p : String) : Bool :=
  charsPre p.data.reverse s.data.reverse

/-- Python s.rstrip(): remove trailing whitespace. -/
def pyRstrip (s : String) : String :=
  String.mk ((s.data.reverse.dropWhile Char.isWhitespace).reverse)

/-- Python s.strip(os.sep) on POSIX: remove leading and trailing "/". -/
def pyStripSlashes (s : String) : String :=
  String.mk (((s.data.dropWhile (fun c => c = '/')).reverse.dropWhile (fun c => c = '/')).reverse)

/-- Splitting a character list on "/" (re.split(os.sep + '|/', s) on POSIX
splits on "/"); like Python split this always returns at least one group. -/
def splitSlashes : List Char → List (List Char)
  | [] => [[]]
  | c :: cs =>
    let r := splitSlashes cs
    if c = '/' then [] :: r
    else
      match r with
      | [] => [[c]]
      | g :: gs => (c :: g) :: gs

/-- Segment list of a remote key: remote.strip(os.sep) split on "/"
(lines 228 / 384). -/
def keySegments (remote : String) : List String :=
  (splitSlashes (pyStripSlashes remote).data).map String.mk

/-- Python option.split(" ", 1): split on the first space only
(line 631's option splitting rule). -/
def splitFirstSpace (s : String) : List String :=
  let pre := s.data.takeWhile (fun c => c ≠ ' ')
  if pre.length = s.data.length then [s]
  else [String.mk pre, String.mk (s.data.drop (pre.length + 1))]

/-- Replace all non-overlapping occurrences of old (assumed nonempty, as in
every use in the source) in a character list, scanning left to right; fuel
is the length of the scanned list. -/
def replaceChars (old new : List Char) : Nat → List Char → List Char
  | _, [] => []
  | 0, l => l
  | Nat.succ fuel, c :: cs =>
    if old ≠ [] ∧ charsPre old (c :: cs) = true then
      new ++ replaceChars old new fuel (List.drop (old.length - 1) cs)
    else
      c :: replaceChars old new fuel cs

/-- Python s.replace(old, new) for nonempty old. -/
def pyReplace (s old new : String) : String :=
  String.mk (replaceChars old.data new.data s.data.length s.data)

/-- Python os.path.basename(p) on POSIX: the part after the last "/". -/
def pyBasename (p : String) : String :=
  String.mk ((p.data.reverse.takeWhile (fun c => c ≠ '/')).reverse)

/-- Python os.path.dirname(p) on POSIX (posixpath.dirname): everything up to
the last "/", with trailing slashes removed unless the head is all
slashes. -/
def pyDirname (p : String) : String :=
  let head := (p.data.reverse.dropWhile (fun c => c ≠ '/')).reverse
  if head ≠ [] ∧ head.any (fun c => c ≠ '/') then
    String.mk ((head.reverse.dropWhile (fun c => c = '/')).reverse)
  else
    String.mk head

/-- Truthiness of an optional Python string: None and "" are falsy. -/
def strTruthy (o : Option String) : Bool :=
  o.getD "" != ""

/-- console_print (lines 5-15), as the pure string it prints.  The source
signature is console_print(host, prefix, output) with three required
positional parameters; the middle one is called pfx here. -/
def console_print (host pfx output : String) : String :=
  let h :=
    if host ≠ "" ∧ pfx ≠ "" then host ++ "[" ++ pfx ++ "]: "
    else if host ≠ "" ∧ pfx = "" then host ++ ": "
    else if host = "" ∧ pfx ≠ "" then pyBasename pfx ++ ": "
    else host
  "[rsync-ssh] " ++ h ++ pyReplace output "\n" ("\n[rsync-ssh] " ++ h)

/-- Python call semantics for console_print: a call with a number of
positional arguments other than its three required parameters raises
TypeError (missing or extra required positional argument). -/
def console_print_apply (args : List String) : Except PyError String :=
  match args with
  | [host, pfx, output] => Except.ok (console_print host pfx output)
  | _ => Except.error PyError.typeError

/-- RsyncSshSyncSelection.isInDirectory (lines 236-241), over canonical
segment lists.  The source reverses fileParts and pops from the end inside
the any(...) generator, which consumes the original fileParts front to
back; a pop on an exhausted list raises IndexError, and any(...) short
circuits at the first mismatching segment. -/
def isInDirectory : List String → List String → Except PyError Bool
  | [], _ => Except.ok true
  | _ :: _, [] => Except.error PyError.indexError
  | folderPart :: folderRest, filePart :: fileRest =>
    if folderPart ≠ filePart then Except.ok false
    else isInDirectory folderRest fileRest

/-- RsyncSshSyncSelection.matchFile (lines 233-234): the keys whose resolved
path is an ancestor-or-equal of the file; an exception from isInDirectory
propagates out of the comprehension. -/
def matchFile (realRemotePaths : List (String × List String)) (fileParts : List String) :
    Except PyError (List String) :=
  realRemotePaths.foldlM
    (fun acc kv => (isInDirectory kv.2 fileParts).map (fun b => if b then acc ++ [kv.1] else acc))
    []

/-- Guard of line 230 / 386: both segment lists nonempty and the window
folder's last segment equals the remote key's first segment. -/
def matchKey (windowFolderArr remoteArr : List String) : Bool :=
  decide (0 < windowFolderArr.length ∧ 0 < remoteArr.length ∧
    windowFolderArr.getLast? = remoteArr.head?)

/-- Resolution of one remote key against the window folders
(lines 229-231 / 385-387): the loop assigns on every matching window folder
with no break, so a later match overwrites an earlier one. -/
def resolveKey (windowFoldersArr : List (List String)) (remoteArr : List String) :
    Option (List String) :=
  windowFoldersArr.foldl
    (fun acc windowFolderArr =>
      if matchKey windowFolderArr remoteArr then some (windowFolderArr ++ remoteArr.tail)
      else acc)
    none

/-- loadRemotePathMapping (lines 224-231) / the same loop in
RsyncSSH.__init__ (lines 380-387): remote key string to resolved segment
list. -/
def loadRemotePathMapping (windowFoldersArr : List (List String)) (remoteKeys : List String) :
    List (String × List String) :=
  remoteKeys.filterMap (fun k => (resolveKey windowFoldersArr (keySegments k)).map (fun p => (k, p)))

/-- One destination entry of the remotes mapping (project configuration,
lines 100-110).  Optional fields model Python dict .get lookups; enabled is
modelled as an optional boolean whose truthiness stands for the truthiness
of the stored value. -/
structure Destination where
  remote_user : String
  remote_host : String
  remote_port : Option Nat
  remote_path : String
  remote_pre_command : Option String
  remote_post_command : Option String
  enabled : Option Bool
  excludes : List String
  options : List String
deriving DecidableEq

/-- Global rsync_ssh settings (lines 443-452): excludes and options default
to [], timeout to 10, ssh_binary to "ssh"; the defaults are already
resolved here.  remotes preserves dict insertion order. -/
structure Settings where
  excludes : List String
  options : List String
  timeout : Nat
  ssh_binary : String
  remotes : List (String × List Destination)

/-- Argument construction of RsyncSshSyncBase.sync_destination
(lines 183-195): choice 0 sends force_sync false, any other choice sends
force_sync true; the chosen index is passed through unchanged. -/
def sync_destination_args (choice : Nat) : Bool × Nat :=
  (if choice = 0 then false else true, choice)

/-- Destination-index resolution of RsyncSSH.run (lines 401-406): index 0
(or out of range) maps to None, meaning all destinations; otherwise the
(index-1)-th destination of the folder's list. -/
def resolveDestinationIndex (destinations : List Destination) (d : Nat) :
    Option Destination :=
  if destinations.length < d ∨ d ≤ 0 then none
  else destinations[d - 1]?

/-- Fan-out of the sync_destination choice for one folder, composing
sync_destination_args with RsyncSSH.run and runFolder (lines 430-439):
a None resolved destination spawns one Rsync job per destination of the
folder, otherwise exactly one; every job carries the run's force_sync. -/
def expandSelection (destinations : List Destination) (choice : Nat) :
    List (Destination × Bool) :=
  let args := sync_destination_args choice
  match resolveDestinationIndex destinations args.2 with
  | none => destinations.map (fun d => (d, args.1))
  | some d => [(d, args.1)]

/-- Merged exclude list of RsyncSSH.runDestination (lines 443-444 and
461-462): [".DS_Store"] extended by the global excludes, then by the
destination's excludes. -/
def mergedExcludes (settingsExcludes destExcludes : List String) : List String :=
  (".DS_Store" :: settingsExcludes) ++ destExcludes

/-- Exclude flags appended to the rsync command (lines 639-640): one
"--exclude=" flag per element of set(excludes). -/
def excludeFlags (excludes : List String) : List String :=
  excludes.dedup.map (fun e => "--exclude=" ++ e)

/-- Outcome of one subprocess.check_output call without a timeout argument:
normal output, or CalledProcessError with a return code and captured
output. -/
inductive CmdResult where
  | ok (output : String)
  | fail (returncode : Int) (output : String)
deriving DecidableEq

/-- Outcome of the probe's check_output call, which passes a timeout and so
may also raise TimeoutExpired (lines 584, 591). -/
inductive ProbeResult where
  | ok (output : String)
  | fail (returncode : Int) (output : String)
  | timeout (output : String)
deriving DecidableEq

/-- External world of one Rsync job: the outcomes of its four possible
subprocess invocations and the os.path.isfile/isdir queries. -/
structure World where
  probe : ProbeResult
  pre : CmdResult
  transfer : CmdResult
  post : CmdResult
  isFile : String → Bool
  isDir : String → Bool

/-- The four subprocess phases of one Rsync job. -/
inductive Phase where
  | probe
  | pre
  | transfer
  | post
deriving DecidableEq

/-- Result classification of one Rsync job, read off from the control path
and console reporting of Rsync.run. -/
inductive JobResult where
  | Skipped
  | ProbeTimeout
  | ProbeFailed
  | ProbeRsyncNotFound
  | Success
  | Warning
  | TransferFailed
deriving DecidableEq

/-- Observable outcome of Rsync.run: the job's result, whether the
post-command failed (recorded but non-fatal), the rsync argv passed to the
transfer subprocess (none if the transfer was never invoked), and the
ordered list of subprocess phases actually invoked. -/
structure RunOutcome where
  result : JobResult
  postFailed : Bool
  command : Option (List String)
  trace : List Phase
deriving DecidableEq

/-- Constructor arguments of the Rsync thread (lines 516-527), minus the
view handle.  pfx is the source's logging-only field named after the folder
key. -/
structure RsyncConfig where
  ssh_binary : String
  local_path : String
  pfx : String
  destination : Destination
  excludes : List String
  options : List String
  timeout : Nat
  specific_path : Option String
  force_sync : Bool
deriving DecidableEq

/-- Rsync.ssh_command_with_default_args (lines 530-541); the -p flag is
added only when remote_port is truthy (0 and absent are falsy). -/
def ssh_command_with_default_args (cfg : RsyncConfig) : List String :=
  [cfg.ssh_binary, "-q", "-T", "-o", "ConnectTimeout=" ++ toString cfg.timeout] ++
    (match cfg.destination.remote_port with
     | some p => if p ≠ 0 then ["-p", toString p] else []
     | none => [])

/-- Source/destination path resolution of Rsync.run (lines 566-575): a
truthy specific path that is a file or directory inside the local root
narrows the sync to that sub-path; a directory gets a trailing slash. -/
def resolvePaths (cfg : RsyncConfig) (w : World) : String × String :=
  let source_path := cfg.local_path ++ "/"
  let destination_path := cfg.destination.remote_path
  match cfg.specific_path with
  | none => (source_path, destination_path)
  | some p =>
    if w.isFile p && strStartsWith p (cfg.local_path ++ "/") then
      (p, cfg.destination.remote_path ++ pyReplace p cfg.local_path "")
    else if w.isDir p && strStartsWith p (cfg.local_path ++ "/") then
      (p ++ "/", cfg.destination.remote_path ++ pyReplace p cfg.local_path "")
    else (source_path, destination_path)

/-- The rsync command assembled in lines 624-640: base flags, the ssh
transport, each option split on its first space, source and quoted
destination, then one flag per element of set(excludes). -/
def rsyncCommandBase (cfg : RsyncConfig) (source_path destination_path : String) :
    List String :=
  ["rsync", "-v", "-zar", "-e", String.intercalate " " (ssh_command_with_default_args cfg)] ++
    (cfg.options.map splitFirstSpace).flatten ++
    [source_path,
      cfg.destination.remote_user ++ "@" ++ cfg.destination.remote_host ++ ":\x27" ++
        destination_path ++ "\x27"] ++
    excludeFlags cfg.excludes

/-- The dry-run test of lines 646, 661 and 665: some element of the
assembled command contains the substring "--dry-run". -/
def hasDryRun (rsync_command : List String) : Bool :=
  rsync_command.any (fun o => containsSubstr o "--dry-run")

/-- Lines 645-650: unless some element of the command contains "--dry-run",
extend it with a --rsync-path argument that creates the destination's
parent directory before running the probed remote rsync binary. -/
def rsyncCommandFinal (cfg : RsyncConfig) (source_path destination_path rsync_path : String) :
    List String :=
  let rsync_command := rsyncCommandBase cfg source_path destination_path
  if hasDryRun rsync_command = false then
    rsync_command ++
      ["--rsync-path", "mkdir -p \x27" ++ pyDirname destination_path ++ "\x27 && " ++ rsync_path]
  else rsync_command

/-- Classification of the transfer subprocess outcome (lines 653-671):
success on exit 0; on CalledProcessError, a warning when the command has a
dry-run element and the output contains "No such file or directory",
otherwise a hard transfer failure. -/
def transferOutcome (w : World) (cmd : List String) : JobResult :=
  match w.transfer with
  | CmdResult.ok _ => JobResult.Success
  | CmdResult.fail _ out =>
    if hasDryRun cmd && containsSubstr out "No such file or directory" then JobResult.Warning
    else JobResult.TransferFailed

/-- The tail of Rsync.run after a successful probe (lines 606-691): the
pre-command runs if configured and its failure is only logged (the except
branch of lines 619-621 has no return, so execution falls through to the
transfer); the transfer always runs; the post-command runs if configured,
its failure recorded without changing the result. -/
def runAfterProbe (cfg : RsyncConfig) (w : World)
    (source_path destination_path rsync_path : String) : RunOutcome :=
  let cmd := rsyncCommandFinal cfg source_path destination_path rsync_path
  { result := transferOutcome w cmd
    postFailed := strTruthy cfg.destination.remote_post_command &&
      (match w.post with
       | CmdResult.fail _ _ => true
       | CmdResult.ok _ => false)
    command := some cmd
    trace := [Phase.probe] ++
      (if strTruthy cfg.destination.remote_pre_command then [Phase.pre] else []) ++
      [Phase.transfer] ++
      (if strTruthy cfg.destination.remote_post_command then [Phase.post] else []) }

/-- Rsync.run (lines 543-691): skip disabled destinations unless forced
(lines 560-563, .get("enabled", 1) defaults to a truthy value); probe the
remote rsync path (lines 577-604), failing the job on timeout, on a
CalledProcessError, or when the reported path does not end in "/rsync";
otherwise continue with pre-command, transfer and post-command. -/
def Rsync.run (cfg : RsyncConfig) (w : World) : RunOutcome :=
  if ¬cfg.force_sync ∧ ¬(cfg.destination.enabled.getD true) then
    { result := JobResult.Skipped, postFailed := false, command := none, trace := [] }
  else
    match w.probe with
    | ProbeResult.timeout _ =>
      { result := JobResult.ProbeTimeout, postFailed := false, command := none,
        trace := [Phase.probe] }
    | ProbeResult.fail _ _ =>
      { result := JobResult.ProbeFailed, postFailed := false, command := none,
        trace := [Phase.probe] }
    | ProbeResult.ok probeOut =>
      if strEndsWith (pyRstrip probeOut) "/rsync" then
        runAfterProbe cfg w (resolvePaths cfg w).1 (resolvePaths cfg w).2 (pyRstrip probeOut)
      else
        { result := JobResult.ProbeRsyncNotFound, postFailed := false, command := none,
          trace := [Phase.probe] }

/-- RsyncSSH.runDestination (lines 441-511): merge the global settings with
the destination's, then either report an unknown folder (the source calls
console_print with only two of its three required positional arguments at
line 468 before the early return) or spawn one Rsync thread per file, or a
single whole-folder thread when no files were given. -/
def runDestination (realRemotePaths : List (String × String)) (s : Settings)
    (files : List String) (force_sync : Bool) (folder : String) (destination : Destination) :
    Except PyError (List RsyncConfig) :=
  let global_excludes := ".DS_Store" :: s.excludes
  let global_options := s.options
  let connect_timeout := s.timeout
  let ssh_binary := s.ssh_binary
  let local_excludes := global_excludes ++ destination.excludes
  let local_options := global_options ++ destination.options
  if (realRemotePaths.lookup folder).isNone then
    match console_print_apply [folder, "is unknown"] with
    | Except.error e => Except.error e
    | Except.ok _ => Except.ok []
  else
    let local_path := (realRemotePaths.lookup folder).getD ""
    if files.length > 0 then
      Except.ok (files.map (fun f =>
        { ssh_binary := ssh_binary, local_path := local_path, pfx := folder,
          destination := destination, excludes := local_excludes, options := local_options,
          timeout := connect_timeout, specific_path := some f, force_sync := force_sync }))
    else
      Except.ok
        [{ ssh_binary := ssh_binary, local_path := local_path, pfx := folder,
           destination := destination, excludes := local_excludes, options := local_options,
           timeout := connect_timeout, specific_path := none, force_sync := force_sync }]

/-- RsyncSSH.runFolder for the all-destinations case (lines 434-437): call
runDestination for every destination of the folder in order; an uncaught
exception aborts the loop. -/
def runFolderAll (realRemotePaths : List (String × String)) (s : Settings)
    (files : List String) (force_sync : Bool) (folder : String)
    (destinations : List Destination) : Except PyError (List RsyncConfig) :=
  destinations.foldlM
    (fun acc d => (runDestination realRemotePaths s files force_sync folder d).map
      (fun js => acc ++ js))
    []

/-- RsyncSSH.run for the all-folders scope (lines 408-410): iterate the
remotes mapping in order; an uncaught exception from one folder kills the
thread, so later folders are never reached. -/
def runAllFolders (realRemotePaths : List (String × String)) (s : Settings)
    (files : List String) (force_sync : Bool) : Except PyError (List RsyncConfig) :=
  s.remotes.foldlM
    (fun acc kv => (runFolderAll realRemotePaths s files force_sync kv.1 kv.2).map
      (fun js => acc ++ js))
    []

/-- Concrete destination for the C1 scenario: pre-command configured,
enabled. -/
def dstC1 : Destination :=
  { remote_user := "u", remote_host := "h", remote_port := some 22,
    remote_path := "/srv/app", remote_pre_command := some "make prepare",
    remote_post_command := none, enabled := some true, excludes := [], options := [] }

/-- Concrete job configuration for the C1 scenario. -/
def cfgC1 : RsyncConfig :=
  { ssh_binary := "ssh", local_path := "/app", pfx := "app", destination := dstC1,
    excludes := [], options := [], timeout := 10, specific_path := none, force_sync := false }

/-- Concrete world for the C1 scenario: the probe succeeds, the pre-command
exits non-zero, the transfer succeeds. -/
def wC1 : World :=
  { probe := ProbeResult.ok "/usr/bin/rsync", pre := CmdResult.fail 1 "make: error",
    transfer := CmdResult.ok "sent 1 bytes", post := CmdResult.ok "",
    isFile := fun _ => false, isDir := fun _ => false }

/-- Concrete destination for the C2 scenario. -/
def dstC2 : Destination :=
  { remote_user := "u", remote_host := "h", remote_port := some 22,
    remote_path := "/srv/app", remote_pre_command := none,
    remote_post_command := none, enabled := some true, excludes := [], options := [] }

/-- Concrete settings for the C2 scenario: the folder key "bad" has no
resolved local path, its sibling "good" does. -/
def settingsC2 : Settings :=
  { excludes := [], options := [], timeout := 10, ssh_binary := "ssh",
    remotes := [("bad", [dstC2]), ("good", [dstC2])] }

/-- Two distinguishable destinations for the C4 scenario. -/
def dstC4a : Destination :=
  { remote_user := "u", remote_host := "a", remote_port := some 22,
    remote_path := "/srv/a", remote_pre_command := none,
    remote_post_command := none, enabled := some true, excludes := [], options := [] }

/-- Second destination for the C4 scenario. -/
def dstC4b : Destination :=
  { remote_user := "u", remote_host := "b", remote_port := some 22,
    remote_path := "/srv/b", remote_pre_command := none,
    remote_post_command := none, enabled := some false, excludes := [], options := [] }

/-- Concrete disabled destination for the C5 scenario. -/
def dstC5a : Destination :=
  { remote_user := "u", remote_host := "h", remote_port := some 22,
    remote_path := "/srv/app", remote_pre_command := none,
    remote_post_command := none, enabled := some false, excludes := [], options := [] }

/-- Concrete destination with no enabled key for the C5 scenario. -/
def dstC5b : Destination :=
  { remote_user := "u", remote_host := "h", remote_port := some 22,
    remote_path := "/srv/app", remote_pre_command := none,
    remote_post_command := none, enabled := none, excludes := [], options := [] }

/-- Job configuration over the disabled destination, not forced. -/
def cfgC5a : RsyncConfig :=
  { ssh_binary := "ssh", local_path := "/app", pfx := "app", destination := dstC5a,
    excludes := [], options := [], timeout := 10, specific_path := none, force_sync := false }

/-- Job configuration over the destination with no enabled key, not
forced. -/
def cfgC5b : RsyncConfig :=
  { ssh_binary := "ssh", local_path := "/app", pfx := "app", destination := dstC5b,
    excludes := [], options := [], timeout := 10, specific_path := none, force_sync := false }

/-- Concrete world for the C5 scenario. -/
def wC5 : World :=
  { probe := ProbeResult.ok "/usr/bin/rsync", pre := CmdResult.ok "",
    transfer := CmdResult.ok "", post := CmdResult.ok "",
    isFile := fun _ => false, isDir := fun _ => false }

/-- Concrete destination for the C6 scenario. -/
def dstC6 : Destination :=
  { remote_user := "u", remote_host := "h", remote_port := some 22,
    remote_path := "/srv/app", remote_pre_command := none,
    remote_post_command := none, enabled := some true, excludes := [], options := [] }

/-- Job configuration for the C6 scenario: a --dry-run option is set. -/
def cfgC6 : RsyncConfig :=
  { ssh_binary := "ssh", local_path := "/app", pfx := "app", destination := dstC6,
    excludes := [], options := ["--dry-run"], timeout := 10, specific_path := none,
    force_sync := true }

/-- Concrete world for the C6 scenario: the transfer exits non-zero with a
missing-directory message. -/
def wC6 : World :=
  { probe := ProbeResult.ok "/usr/bin/rsync", pre := CmdResult.ok "",
    transfer := CmdResult.fail 23 "rsync: change_dir failed: No such file or directory (2)",
    post := CmdResult.ok "",
    isFile := fun _ => false, isDir := fun _ => false }

/-- Concrete destination for the C8 scenarios. -/
def dstC8 : Destination :=
  { remote_user := "u", remote_host := "h", remote_port := some 22,
    remote_path := "/srv/app", remote_pre_command := none,
    remote_post_command := none, enabled := some true, excludes := [], options := [] }

/-- C8 counterexample configuration: no option mentions --dry-run, but the
local path contains the substring, so the source path element of the
assembled command does. -/
def cfgC8x : RsyncConfig :=
  { ssh_binary := "ssh", local_path := "/tmp/--dry-run", pfx := "app", destination := dstC8,
    excludes := [], options := [], timeout := 10, specific_path := none, force_sync := true }

/-- C8 witness configuration: nothing in the command mentions --dry-run. -/
def cfgC8w : RsyncConfig :=
  { ssh_binary := "ssh", local_path := "/app", pfx := "app", destination := dstC8,
    excludes := [], options := [], timeout := 10, specific_path := none, force_sync := true }

/-- Concrete world for the C8 scenarios. -/
def wC8 : World :=
  { probe := ProbeResult.ok "/usr/bin/rsync", pre := CmdResult.ok "",
    transfer := CmdResult.ok "", post := CmdResult.ok "",
    isFile := fun _ => false, isDir := fun _ => false }

/-- Concrete destination for the C9 scenario: post-command configured. -/
def dstC9 : Destination :=
  { remote_user := "u", remote_host := "h", remote_port := some 22,
    remote_path := "/srv/app", remote_pre_command := none,
    remote_post_command := some "touch done", enabled := some true,
    excludes := [], options := [] }

/-- Job configuration for the C9 scenario. -/
def cfgC9 : RsyncConfig :=
  { ssh_binary := "ssh", local_path := "/app", pfx := "app", destination := dstC9,
    excludes := [], options := [], timeout := 10, specific_path := none, force_sync := true }

/-- Concrete world for the C9 scenario: the transfer succeeds and the
post-command exits non-zero. -/
def wC9 : World :=
  { probe := ProbeResult.ok "/usr/bin/rsync", pre := CmdResult.ok "",
    transfer := CmdResult.ok "sent 1 bytes", post := CmdResult.fail 1 "touch: error",
    isFile := fun _ => false, isDir := fun _ => false }

/-- Appending a fixed string on the left is injective. -/
theorem string_append_cancel (p a b : String) (h : p ++ a = p ++ b) : a = b := by
  apply String.ext
  have hd : (p ++ a).data = (p ++ b).data := by rw [h]
  rw [String.data_append p a, String.data_append p b] at hd
  exact List.append_cancel_left hd

/-- The overwrite-on-match fold of resolveKey picks out the last matching
window folder, i.e. the first match of the reversed folder list. -/
theorem resolveKey_foldl (r : List String) (wfs : List (List String))
    (acc : Option (List String)) :
    wfs.foldl
      (fun a windowFolderArr =>
        if matchKey windowFolderArr r then some (windowFolderArr ++ r.tail) else a)
      acc =
    match wfs.reverse.find? (fun wf => matchKey wf r) with
    | some wf => some (wf ++ r.tail)
    | none => acc := by
  induction wfs generalizing acc with
  | nil => simp
  | cons wf wfs ih =>
    rw [List.foldl_cons, ih]
    rw [List.reverse_cons, List.find?_append]
    cases hf : wfs.reverse.find? (fun w => matchKey w r) with
    | some x => simp [Option.or]
    | none =>
      by_cases hm : matchKey wf r
      · simp [Option.or, List.find?_cons_of_pos _ hm, hm]
      · simp [Option.or, List.find?_cons_of_neg _ hm, hm]

/-- C3 counterexample: with window folders [["a","p"], ["b","p"]], both of
which match the remote key ["p","x"], the resolved binding comes from the
second (last) matching folder, not the first as the claim states. -/
theorem C3_counterexample :
    resolveKey [["a", "p"], ["b", "p"]] ["p", "x"] = some ["b", "p", "x"] ∧
    resolveKey [["a", "p"], ["b", "p"]] ["p", "x"] ≠ some (["a", "p"] ++ ["p", "x"].tail) := by
  decide

/-- C3 (amended): path resolution produces a binding for a remote key iff
some workspace folder's final segment equals the key's first segment; the
bound path is that folder's segments followed by the key's segments after
the first; and when several folders match, the LAST matching folder in
workspace-folder order wins (the loop overwrites on every match); unmatched
keys are simply absent. -/
theorem C3_amended_last_match_wins (wfs : List (List String)) (r : List String) :
    resolveKey wfs r =
      (wfs.reverse.find? (fun wf => matchKey wf r)).map (fun wf => wf ++ r.tail) ∧
    ((resolveKey wfs r).isSome = true ↔ ∃ wf ∈ wfs, matchKey wf r = true) ∧
    (∀ p, resolveKey wfs r = some p →
      ∃ wf ∈ wfs, matchKey wf r = true ∧ p = wf ++ r.tail) := by
  have key : resolveKey wfs r =
      (wfs.reverse.find? (fun wf => matchKey wf r)).map (fun wf => wf ++ r.tail) := by
    unfold resolveKey
    rw [resolveKey_foldl]
    cases wfs.reverse.find? (fun wf => matchKey wf r) <;> rfl
  refine ⟨key, ?_, ?_⟩
  · rw [key]
    simp [List.find?_isSome, List.mem_reverse]
  · intro p hp
    rw [key] at hp
    cases hf : wfs.reverse.find? (fun wf => matchKey wf r) with
    | none => rw [hf] at hp; simp at hp
    | some wf =>
      rw [hf] at hp
      simp only [Option.map_some', Option.some.injEq] at hp
      have hpw := @List.find?_some _ (fun wf => matchKey wf r) wf wfs.reverse hf
      exact ⟨wf, List.mem_reverse.mp (List.mem_of_find?_eq_some hf), hpw, hp.symm⟩

/-- C3 witness: a concrete key that resolves. -/
theorem C3_witness : (resolveKey [["r", "app"]] ["app", "src"]).isSome = true :=
  (C3_amended_last_match_wins [["r", "app"]] ["app", "src"]).2.1.mpr
    ⟨["r", "app"], by decide, by decide⟩

/-- C4: selecting destination index 0 expands to one job per destination of
the folder's list with force_sync false; selecting index i with
1 ≤ i ≤ length expands to exactly one job for destination i-1 with
force_sync true. -/
theorem C4_destination_index_expansion (destinations : List Destination) (i : Nat)
    (h1 : 1 ≤ i) (h2 : i ≤ destinations.length) :
    expandSelection destinations 0 = destinations.map (fun d => (d, false)) ∧
    expandSelection destinations i = [(destinations.get ⟨i - 1, by omega⟩, true)] := by
  constructor
  · simp [expandSelection, sync_destination_args, resolveDestinationIndex]
  · have hi0 : ¬ i = 0 := by omega
    have hlt : i - 1 < destinations.length := by omega
    have hno : ¬ (destinations.length < i ∨ i ≤ 0) := by omega
    simp only [expandSelection, sync_destination_args, resolveDestinationIndex,
      if_neg hi0, if_neg hno]
    rw [List.getElem?_eq_getElem hlt]
    simp [List.get_eq_getElem]

/-- C4 witness: a two-destination folder, choice 0 and choice 2. -/
theorem C4_witness :
    expandSelection [dstC4a, dstC4b] 0 = [(dstC4a, false), (dstC4b, false)] ∧
    expandSelection [dstC4a, dstC4b] 2 = [(dstC4b, true)] := by
  have h := C4_destination_index_expansion [dstC4a, dstC4b] 2 (by decide) (by decide)
  exact ⟨h.1, h.2⟩

/-- C7: the exclude flags passed to rsync contain no duplicates, and their
patterns are exactly the union of the global excludes, ".DS_Store", and the
destination's excludes. -/
theorem C7_exclude_flags_dedup_union (g d : List String) :
    (excludeFlags (mergedExcludes g d)).Nodup ∧
    (∀ x : String, ("--exclude=" ++ x) ∈ excludeFlags (mergedExcludes g d) ↔
      (x ∈ g ∨ x = ".DS_Store" ∨ x ∈ d)) ∧
    (∀ y ∈ excludeFlags (mergedExcludes g d), ∃ x, y = "--exclude=" ++ x ∧
      (x ∈ g ∨ x = ".DS_Store" ∨ x ∈ d)) := by
  have hinj : ∀ a b : String, "--exclude=" ++ a = "--exclude=" ++ b → a = b :=
    fun a b => string_append_cancel _ a b
  have hmem : ∀ x : String, x ∈ mergedExcludes g d ↔ (x ∈ g ∨ x = ".DS_Store" ∨ x ∈ d) := by
    intro x
    simp [mergedExcludes]
    tauto
  refine ⟨?_, ?_, ?_⟩
  · exact List.Nodup.map (fun a b => hinj a b) (List.nodup_dedup _)
  · intro x
    constructor
    · intro hx
      rcases List.mem_map.mp hx with ⟨y, hy, hxy⟩
      have hyx : y = x := hinj y x hxy
      subst hyx
      exact (hmem y).mp (List.mem_dedup.mp hy)
    · intro hx
      exact List.mem_map.mpr ⟨x, List.mem_dedup.mpr ((hmem x).mpr hx), rfl⟩
  · intro y hy
    rcases List.mem_map.mp hy with ⟨x, hx, hxy⟩
    exact ⟨x, hxy.symm, (hmem x).mp (List.mem_dedup.mp hx)⟩

/-- C7 witness: the .DS_Store flag is always present. -/
theorem C7_witness : ("--exclude=" ++ ".DS_Store") ∈ excludeFlags (mergedExcludes [] []) :=
  ((C7_exclude_flags_dedup_union [] []).2.1 ".DS_Store").mpr (Or.inr (Or.inl rfl))

/-- C10: when the queried file's canonical segment list is strictly shorter
than the folder's and agrees with it on all of its own segments (the file
is a proper ancestor of the folder), isInDirectory pops from an exhausted
list and raises IndexError instead of returning false. -/
theorem C10_is_in_directory_index_error (folderParts fileParts : List String)
    (h1 : fileParts.length < folderParts.length)
    (h2 : ∀ i (h : i < fileParts.length),
      fileParts.get ⟨i, h⟩ = folderParts.get ⟨i, Nat.lt_trans h h1⟩) :
    isInDirectory folderParts fileParts = Except.error PyError.indexError := by
  induction fileParts generalizing folderParts with
  | nil =>
    cases folderParts with
    | nil => simp at h1
    | cons p ps => rfl
  | cons f fs ih =>
    cases folderParts with
    | nil => simp at h1
    | cons p ps =>
      have h0 : f = p := h2 0 (Nat.succ_pos _)
      subst h0
      have hstep : isInDirectory (f :: ps) (f :: fs) =
          if f ≠ f then Except.ok false else isInDirectory ps fs := rfl
      rw [hstep, if_neg (fun hc => hc rfl)]
      have h1s : fs.length < ps.length := by
        simpa using h1
      exact ih ps h1s (fun i h => h2 (i + 1) (Nat.succ_lt_succ h))

/-- C10 witness: the file /home/u is a proper ancestor of the folder
/home/u/proj; matching raises IndexError. -/
theorem C10_witness :
    isInDirectory ["home", "u", "proj"] ["home", "u"] = Except.error PyError.indexError :=
  C10_is_in_directory_index_error ["home", "u", "proj"] ["home", "u"] (by decide) (by decide)

/-- C2 (code bug): a requested folder key with no resolved local path makes
the per-destination step call console_print with two of its three required
positional arguments (line 468), raising TypeError; the exception kills the
sync thread, so the sibling folder "good" is never synced — the run does
not log-and-skip as intended. -/
theorem C2_unknown_folder_type_error :
    console_print_apply ["bad", "is unknown"] = Except.error PyError.typeError ∧
    runAllFolders [("good", "/w/good")] settingsC2 [] false =
      Except.error PyError.typeError := by
  exact ⟨rfl, rfl⟩

/-- After the disabled-skip check passes and the probe reports a path
ending in "/rsync", Rsync.run is exactly runAfterProbe. -/
theorem run_reached (cfg : RsyncConfig) (w : World) (pout : String)
    (hskip : (cfg.force_sync || cfg.destination.enabled.getD true) = true)
    (hp : w.probe = ProbeResult.ok pout)
    (hr : strEndsWith (pyRstrip pout) "/rsync" = true) :
    Rsync.run cfg w =
      runAfterProbe cfg w (resolvePaths cfg w).1 (resolvePaths cfg w).2 (pyRstrip pout) := by
  have h1 : ¬ (¬ (cfg.force_sync = true) ∧ ¬ (cfg.destination.enabled.getD true = true)) := by
    have hor : cfg.force_sync = true ∨ cfg.destination.enabled.getD true = true := by
      simpa using hskip
    rcases hor with h | h
    · exact fun hc => hc.1 h
    · exact fun hc => hc.2 h
  unfold Rsync.run
  rw [if_neg h1, hp]
  simp [hr]

/-- C5: a job over a destination with a falsy enabled flag and force_sync
false terminates Skipped with an empty subprocess trace (no probe,
pre-command, transfer or post-command); with the enabled key absent the
default is truthy and the job proceeds to the probe. -/
theorem C5_disabled_skip_and_enabled_default (cfg : RsyncConfig) (w : World) :
    (cfg.force_sync = false → cfg.destination.enabled = some false →
      Rsync.run cfg w =
        { result := JobResult.Skipped, postFailed := false, command := none, trace := [] }) ∧
    (cfg.destination.enabled = none → Phase.probe ∈ (Rsync.run cfg w).trace) := by
  constructor
  · intro hf he
    unfold Rsync.run
    rw [hf, he]
    simp
  · intro he
    unfold Rsync.run
    rw [he]
    rw [if_neg (fun hc => hc.2 rfl)]
    cases hw : w.probe with
    | timeout o => simp
    | fail rc o => simp
    | ok o =>
      by_cases hr : strEndsWith (pyRstrip o) "/rsync" = true
      · simp [hr, runAfterProbe]
      · simp [hr]

/-- C5 witness: concrete disabled and enabled-absent destinations. -/
theorem C5_witness :
    (Rsync.run cfgC5a wC5).result = JobResult.Skipped ∧
    (Rsync.run cfgC5a wC5).trace = [] ∧
    Phase.probe ∈ (Rsync.run cfgC5b wC5).trace := by
  have ha := (C5_disabled_skip_and_enabled_default cfgC5a wC5).1 rfl rfl
  have hb := (C5_disabled_skip_and_enabled_default cfgC5b wC5).2 rfl
  rw [ha]
  exact ⟨rfl, rfl, hb⟩

/-- C1 counterexample: with a configured pre-command that exits non-zero
(wC1.pre is a CalledProcessError), the transfer subprocess is still
invoked and the job's result is Success — the job does not terminate in a
pre-command failure and the transfer phase is not suppressed. -/
theorem C1_counterexample :
    strTruthy cfgC1.destination.remote_pre_command = true ∧
    wC1.pre = CmdResult.fail 1 "make: error" ∧
    Phase.transfer ∈ (Rsync.run cfgC1 wC1).trace ∧
    (Rsync.run cfgC1 wC1).result = JobResult.Success := by
  refine ⟨by decide, rfl, ?_, rfl⟩
  decide

/-- C1 (amended): a non-zero pre-command exit is only logged (the except
branch of lines 619-621 has no return): the pre-command subprocess is
invoked, the transfer subprocess is still invoked, and the job's outcome is
exactly what it would have been had the pre-command succeeded. -/
theorem C1_amended_pre_failure_does_not_gate (cfg : RsyncConfig) (w : World)
    (pout out : String) (rc : Int)
    (hskip : (cfg.force_sync || cfg.destination.enabled.getD true) = true)
    (hp : w.probe = ProbeResult.ok pout)
    (hr : strEndsWith (pyRstrip pout) "/rsync" = true)
    (hpre : strTruthy cfg.destination.remote_pre_command = true)
    (hfail : w.pre = CmdResult.fail rc out) :
    Phase.pre ∈ (Rsync.run cfg w).trace ∧
    Phase.transfer ∈ (Rsync.run cfg w).trace ∧
    (Rsync.run cfg w).result = (Rsync.run cfg { w with pre := CmdResult.ok "" }).result := by
  have h := run_reached cfg w pout hskip hp hr
  have h2 := run_reached cfg { w with pre := CmdResult.ok "" } pout hskip hp hr
  rw [h, h2]
  refine ⟨?_, ?_, rfl⟩
  · simp [runAfterProbe, hpre]
  · simp [runAfterProbe]

/-- C1 witness: the amended theorem applied to the concrete C1 scenario. -/
theorem C1_witness :
    Phase.pre ∈ (Rsync.run cfgC1 wC1).trace ∧
    Phase.transfer ∈ (Rsync.run cfgC1 wC1).trace := by
  have h := C1_amended_pre_failure_does_not_gate cfgC1 wC1 "/usr/bin/rsync" "make: error" 1
    rfl rfl (by decide) (by decide) rfl
  exact ⟨h.1, h.2.1⟩

/-- C6: when the transfer subprocess exits non-zero, the job's result is
Warning iff the assembled rsync command contains an element containing the
substring "--dry-run" and the captured output contains "No such file or
directory"; otherwise it is the hard TransferFailed. -/
theorem C6_dry_run_warning_downgrade (cfg : RsyncConfig) (w : World)
    (pout tout : String) (rc : Int)
    (hskip : (cfg.force_sync || cfg.destination.enabled.getD true) = true)
    (hp : w.probe = ProbeResult.ok pout)
    (hr : strEndsWith (pyRstrip pout) "/rsync" = true)
    (ht : w.transfer = CmdResult.fail rc tout) :
    ((Rsync.run cfg w).result = JobResult.Warning ↔
      (hasDryRun ((Rsync.run cfg w).command.getD []) = true ∧
        containsSubstr tout "No such file or directory" = true)) ∧
    ((Rsync.run cfg w).result = JobResult.Warning ∨
      (Rsync.run cfg w).result = JobResult.TransferFailed) := by
  rw [run_reached cfg w pout hskip hp hr]
  simp only [runAfterProbe, transferOutcome, ht, Option.getD_some]
  by_cases hd : hasDryRun
      (rsyncCommandFinal cfg (resolvePaths cfg w).1 (resolvePaths cfg w).2 (pyRstrip pout)) = true
  · by_cases hc : containsSubstr tout "No such file or directory" = true
    · simp [hd, hc]
    · simp [hd, hc]
  · simp [hd]

/-- C6 witness: a dry-run option plus a missing-directory message yields a
Warning. -/
theorem C6_witness : (Rsync.run cfgC6 wC6).result = JobResult.Warning := by
  have h := C6_dry_run_warning_downgrade cfgC6 wC6 "/usr/bin/rsync"
    "rsync: change_dir failed: No such file or directory (2)" 23 rfl rfl (by decide) rfl
  exact h.1.mpr ⟨by decide, by decide⟩

/-- C8 counterexample: with cfgC8x no option string contains "--dry-run",
yet the mkdir --rsync-path wrapper is NOT added, because the source path
element of the assembled command (built from cfgC8x.local_path, a folder
whose name contains the substring) contains "--dry-run"; this refutes the
claim's "if and only if no effective option string contains --dry-run". -/
theorem C8_counterexample :
    cfgC8x.options.all (fun o => !containsSubstr o "--dry-run") = true ∧
    ((Rsync.run cfgC8x wC8).command.getD []).all (fun a => a != "--rsync-path") = true := by
  decide

/-- C8 (amended): iff no element of the assembled rsync command (the split
option strings together with the remaining argv elements: the transport
string, source path, quoted destination spec and exclude flags) contains
the substring "--dry-run", the command is extended with a --rsync-path
argument of the form "mkdir -p '<parent of destination path>' && <probed
remote rsync path>". -/
theorem C8_amended_mkdir_wrap (cfg : RsyncConfig) (w : World) (pout : String)
    (hskip : (cfg.force_sync || cfg.destination.enabled.getD true) = true)
    (hp : w.probe = ProbeResult.ok pout)
    (hr : strEndsWith (pyRstrip pout) "/rsync" = true) :
    (hasDryRun (rsyncCommandBase cfg (resolvePaths cfg w).1 (resolvePaths cfg w).2) = false →
      (Rsync.run cfg w).command =
        some (rsyncCommandBase cfg (resolvePaths cfg w).1 (resolvePaths cfg w).2 ++
          ["--rsync-path",
            "mkdir -p \x27" ++ pyDirname (resolvePaths cfg w).2 ++ "\x27 && " ++
              pyRstrip pout])) ∧
    (hasDryRun (rsyncCommandBase cfg (resolvePaths cfg w).1 (resolvePaths cfg w).2) = true →
      (Rsync.run cfg w).command =
        some (rsyncCommandBase cfg (resolvePaths cfg w).1 (resolvePaths cfg w).2)) := by
  rw [run_reached cfg w pout hskip hp hr]
  constructor
  · intro hd
    simp [runAfterProbe, rsyncCommandFinal, hd]
  · intro hd
    simp [runAfterProbe, rsyncCommandFinal, hd]

/-- C8 witness: with nothing in the command mentioning --dry-run, the
wrapper is appended. -/
theorem C8_witness :
    (Rsync.run cfgC8w wC8).command =
      some ["rsync", "-v", "-zar", "-e", "ssh -q -T -o ConnectTimeout=10 -p 22", "/app/",
        "u@h:\x27/srv/app\x27", "--rsync-path", "mkdir -p \x27/srv\x27 && /usr/bin/rsync"] := by
  have h := (C8_amended_mkdir_wrap cfgC8w wC8 "/usr/bin/rsync" rfl rfl (by decide)).1 (by decide)
  rw [h]
  decide

/-- C9: with a configured post-command, the post phase is attempted
whenever the job reached the transfer phase (whatever the transfer outcome
was); a failing post-command is recorded in postFailed but the job's result
is exactly the transfer-decided one, so a successful transfer stays
Success. -/
theorem C9_post_always_attempted (cfg : RsyncConfig) (w : World) (pout : String)
    (hskip : (cfg.force_sync || cfg.destination.enabled.getD true) = true)
    (hp : w.probe = ProbeResult.ok pout)
    (hr : strEndsWith (pyRstrip pout) "/rsync" = true)
    (hpost : strTruthy cfg.destination.remote_post_command = true) :
    Phase.post ∈ (Rsync.run cfg w).trace ∧
    (Rsync.run cfg w).result = (Rsync.run cfg { w with post := CmdResult.ok "" }).result ∧
    (∀ rc o, w.post = CmdResult.fail rc o → (Rsync.run cfg w).postFailed = true) ∧
    (∀ o, w.transfer = CmdResult.ok o → (Rsync.run cfg w).result = JobResult.Success) := by
  have h := run_reached cfg w pout hskip hp hr
  have h2 := run_reached cfg { w with post := CmdResult.ok "" } pout hskip hp hr
  rw [h, h2]
  refine ⟨?_, rfl, ?_, ?_⟩
  · simp [runAfterProbe, hpost]
  · intro rc o hpo
    simp [runAfterProbe, hpost, hpo]
  · intro o hto
    simp [runAfterProbe, transferOutcome, hto]

/-- C9 witness: a failing post-command after a successful transfer leaves
the result Success with the failure recorded. -/
theorem C9_witness :
    Phase.post ∈ (Rsync.run cfgC9 wC9).trace ∧
    (Rsync.run cfgC9 wC9).postFailed = true ∧
    (Rsync.run cfgC9 wC9).result = JobResult.Success := by
  have h := C9_post_always_attempted cfgC9 wC9 "/usr/bin/rsync" rfl rfl (by decide) (by decide)
  exact ⟨h.1, h.2.2.1 1 "touch: error" rfl, h.2.2.2 "sent 1 bytes" rfl⟩
